import Mathlib

/-!
# Subspace web gateway: session manager and `WebHandler`

A shallow embedding of `cmd/subspace/web.go`.

* Instants (`time.Time`) are integers counting nanoseconds since the Unix
  epoch; `Before`/`After` are the strict orders on instants.
* Every `time.Now()` call site is a separate clock reading, passed in
  explicitly, so nothing is assumed about how readings relate unless a
  theorem says so.
* Collaborators that live outside `web.go` (the token codec `securetoken`,
  the configuration store `config`, the SAML middleware `samlSP`) are
  parameters.  Each of them is consulted at most once per request with a given
  argument, so a function from arguments to Go result pairs describes them.
* Effects (calls to collaborators, writes to the `http.ResponseWriter`,
  log lines, the call of the wrapped handler) are recorded in order as a list
  of `Event`s.
-/

namespace Subspace

/-! ## Data model -/

/-- An instant, in nanoseconds since the Unix epoch. -/
abbrev Time := Int

/-- The Go constant `time.Hour`, in nanoseconds. -/
def Hour : Int := 3600 * 1000000000

/-- The Go function `time.Unix(sec, 0)`. -/
def Unix (sec : Int) : Time := sec * 1000000000

def SessionCookieName : String := "__subspace_session"

def SessionCookieNameSSO : String := "__subspace_sso_session"

/-- The `Session` struct. -/
structure Session where
  Admin : Bool
  UserID : String
  NotBefore : Time
  NotAfter : Time
  deriving DecidableEq, Repr

/-- Modelled from the spec: the `User` type is declared outside `web.go`; the
spec gives an identity an id, an email and an admin flag, and `web.go` reads
`ID` and `Admin`.  `User.zero` is Go's zero value `User{}`. -/
structure User where
  ID : String
  Email : String
  Admin : Bool
  deriving DecidableEq, Repr

def User.zero : User := { ID := "", Email := "", Admin := false }

/-- The part of `Info` that `web.go` reads. -/
structure Info where
  Configured : Bool
  deriving DecidableEq, Repr

/-- An inbound request: the cookies it carries, in header order. -/
structure Request where
  cookies : List (String × String)
  deriving DecidableEq, Repr

/-- The Go method `r.Cookie(name)`: the value of the first cookie with that
name, `none` standing for `http.ErrNoCookie`. -/
def Request.Cookie (r : Request) (name : String) : Option String :=
  (r.cookies.find? (fun c => c.1 == name)).map (fun c => c.2)

/-- The request with every cookie of the given name removed. -/
def Request.withoutCookie (r : Request) (name : String) : Request :=
  { cookies := r.cookies.filter (fun c => !(c.1 == name)) }

/-- The fields of `http.Cookie` that `web.go` sets (`MaxAge` is 0 when the
literal leaves it out). -/
structure Cookie where
  Name : String
  Value : String
  Path : String
  HttpOnly : Bool
  Domain : String
  MaxAge : Int
  Expires : Time
  deriving DecidableEq, Repr

/-- The error values that flow through `web.go`.  The ones built with
`fmt.Errorf` are fresh values, one constructor per call site; error values
handed back by a collaborator are wrapped by origin. -/
inductive GoError
  | ErrUserNotFound
  | missingCookie
  | beforeValid
  | expired (notAfter now : Time)
  | encodingError (cause : String)
  | notJWTSessionClaims
  | samlMissingEmail
  | codec (msg : String)
  | store (msg : String)
  deriving DecidableEq, Repr

/-- What the configuration store may hand back as a non-nil `error`: the
sentinel `ErrUserNotFound`, or something else. -/
inductive StoreError
  | ErrUserNotFound
  | failure (msg : String)
  deriving DecidableEq, Repr

def StoreError.toError : StoreError → GoError
  | .ErrUserNotFound => .ErrUserNotFound
  | .failure msg => .store msg

deriving instance DecidableEq for Except

/-- The `securetoken` codec: `Encode(name, value)` and `Decode(name, value, dst)`,
each failing with an error text or succeeding. -/
structure SecureToken where
  Encode : String → Session → Except String String
  Decode : String → String → Except String Session

/-- The `config` store as `web.go` uses it.  The lookups return a Go pair
`(User, error)`, `none` standing for a nil error. -/
structure Config where
  Configured : Bool
  FindUser : String → User × Option StoreError
  FindUserByEmail : String → User × Option StoreError
  AddUser : String → User × Option StoreError

/-- The dynamic type of a non-nil `samlsp.Session`: a `JWTSessionClaims`
value with its `Subject`, or anything else. -/
inductive SamlSession
  | JWTSessionClaims (Subject : String)
  | other
  deriving DecidableEq, Repr

/-- The SAML middleware: `Session.GetSession(r)` returns a session or nil,
and an error or nil. -/
structure SamlSP where
  GetSession : Request → Option SamlSession × Option String

/-- One reading per `time.Now()` call site of `web.go`. -/
structure Clock where
  webTime : Time
  validateBefore : Time
  validateAfter : Time
  validateMsg : Time
  signinExpires : Time
  signinNotBefore : Time

/-- The process-wide state `web.go` reads. -/
structure Env where
  config : Config
  securetoken : SecureToken
  samlSP : Option SamlSP
  httpHost : String
  clock : Clock

/-- The `Web` value handed to a handler: the fields `WebHandler` computes.
The remaining fields are copies of process globals (`Backlink`, `Version`,
`SAML`, `SemanticTheme`, `TempTotpKey`), the writer and router parameters, or
are left at their zero value. -/
structure Web where
  template : String
  Request : Request
  Section : String
  Time : Time
  Info : Info
  Admin : Bool
  User : User
  deriving DecidableEq, Repr

inductive LogLevel
  | debug
  | info
  | warn
  | error
  deriving DecidableEq, Repr

/-- The observable steps of a request, in program order. -/
inductive Event
  | findInfo
  | validateSession (r : Request)
  | decode (name value : String)
  | encode (name : String) (s : Session)
  | findUser (id : String)
  | findUserByEmail (email : String)
  | addUser (email : String)
  | getSession (r : Request)
  | setCookie (c : Cookie)
  | redirect (location : String) (code : Nat)
  | writeHeader (code : Nat)
  | setHeader (key value : String)
  | writeErrorPage
  | log (level : LogLevel) (format : String) (args : List String)
  | logError (err : GoError)
  | handler (web : Web)
  deriving DecidableEq, Repr

/-! ## The functions of `web.go` -/

/-- The function `Error(w, err)`. -/
def Error (err : GoError) : List Event :=
  [.logError err,
   .writeHeader 500,
   .setHeader "Content-Type" "text/html; charset=utf-8",
   .writeErrorPage]

/-- The method `(*Web).Redirect`, called with a format that has no verbs. -/
def Web.Redirect (_w : Web) (location : String) : List Event :=
  [.redirect location 302]

/-- The function `ValidateSession(r)`, with the three clock readings it
takes.  Returns the collaborator calls made and the Go result, `.error`
standing for `(nil, err)`. -/
def ValidateSession (securetoken : SecureToken) (r : Request)
    (nowBefore nowAfter nowMsg : Time) : List Event × Except GoError Session :=
  match r.Cookie SessionCookieName with
  | none => ([], .error .missingCookie)
  | some value =>
    match securetoken.Decode SessionCookieName value with
    | .error msg => ([.decode SessionCookieName value], .error (.codec msg))
    | .ok session =>
      if nowBefore < session.NotBefore then
        ([.decode SessionCookieName value], .error .beforeValid)
      else if session.NotAfter < nowAfter then
        ([.decode SessionCookieName value], .error (.expired session.NotAfter nowMsg))
      else
        ([.decode SessionCookieName value], .ok session)

/-- The method `(*Web).SignoutSession`. -/
def SignoutSession (samlSP : Option SamlSP) (httpHost : String) : List Event :=
  (if samlSP.isSome then
    [.setCookie { Name := SessionCookieNameSSO, Value := "", Path := "/", HttpOnly := true,
                  Domain := httpHost, MaxAge := -1, Expires := Unix 1 }]
   else []) ++
  [.setCookie { Name := SessionCookieName, Value := "", Path := "/", HttpOnly := true,
                Domain := httpHost, MaxAge := -1, Expires := Unix 1 }]

/-- The method `(*Web).SigninSession(admin, userID)`, with its two clock
readings: `nowExpires` for `expires`, `nowNotBefore` for the `NotBefore`
field.  Returns the events and the Go `error` (`none` for nil). -/
def SigninSession (securetoken : SecureToken) (httpHost : String)
    (nowExpires nowNotBefore : Time) (admin : Bool) (userID : String) :
    List Event × Option GoError :=
  let expires := nowExpires + 12 * Hour
  let session : Session :=
    { Admin := admin, UserID := userID, NotBefore := nowNotBefore, NotAfter := expires }
  match securetoken.Encode SessionCookieName session with
  | .error msg => ([.encode SessionCookieName session], some (.encodingError msg))
  | .ok encoded =>
    ([.encode SessionCookieName session,
      .setCookie { Name := SessionCookieName, Value := encoded, Path := "/", HttpOnly := true,
                   Domain := httpHost, MaxAge := 0, Expires := expires }],
     none)

/-- Modelled from the spec: `signoutHandler` is defined outside `web.go`; the
spec describes the forced sign-out as clearing the session and redirecting to
the sign-in entry point. -/
def signoutHandler (env : Env) (web : Web) : List Event :=
  SignoutSession env.samlSP env.httpHost ++ web.Redirect "/signin"

/-- The tail of `WebHandler`: the warning and the redirect to `/signin`. -/
def signinRequired (web : Web) : List Event :=
  [.log .warn "auth: sign in required" []] ++ web.Redirect "/signin"

/-- Lines 222-230 of `WebHandler`: attach the resolved user, issue the local
session, call the handler.  The call `h(web)` is recorded as `.handler web`. -/
def federatedDispatch (env : Env) (web : Web) (user : User) : List Event :=
  let signin := SigninSession env.securetoken env.httpHost
    env.clock.signinExpires env.clock.signinNotBefore false user.ID
  signin.1 ++
  match signin.2 with
  | some err => Error err
  | none => [.handler { web with User := user, Admin := user.Admin }]

/-- Lines 192-231 of `WebHandler`: the federated branch once `GetSession` has
returned a non-nil session.  The reassignment `r = r.WithContext(...)` changes
only the local variable: `web` keeps the request it was built with, and
nothing after it reads `r`. -/
def federatedSignin (env : Env) (web : Web) (session : SamlSession) : List Event :=
  match session with
  | .other => Error .notJWTSessionClaims
  | .JWTSessionClaims email =>
    if email = "" then
      Error .samlMissingEmail
    else
      [.log .info "SAML: finding user with email %q" [email], .findUserByEmail email] ++
      match env.config.FindUserByEmail email with
      | (_, some (.failure msg)) => Error (.store msg)
      | (user, _) =>
        if user.ID = "" then
          [.log .info "SAML: creating user with email %q" [email], .addUser email] ++
          match env.config.AddUser email with
          | (_, some err) => Error err.toError
          | (created, none) => federatedDispatch env web created
        else
          federatedDispatch env web user

/-- Lines 187-189 of `WebHandler`: the debug line written when `GetSession`
returns a non-nil error. -/
def samlDebugLog (err : Option String) : List Event :=
  match err with
  | some msg => [.log .debug "SAML: Unable to get session from requests: %+v" [msg]]
  | none => []

/-- The `Web` literal at the head of `WebHandler` (it calls `time.Now()` and
`config.FindInfo()`); `Admin` and `User` start at their zero values. -/
def newWeb (env : Env) (sectionName : String) (r : Request) : Web :=
  { template := sectionName ++ ".html", Request := r, Section := sectionName,
    Time := env.clock.webTime, Info := { Configured := env.config.Configured },
    Admin := false, User := User.zero }

/-- The function `WebHandler(h, section)` applied to a request.  The call
`h(web)` of the wrapped handler is recorded as `.handler web`, with the `Web`
value as it is at the call. -/
def WebHandler (env : Env) (sectionName : String) (r : Request) : List Event :=
  let web := newWeb env sectionName r
  [.findInfo] ++
  if sectionName = "signin" ∨ sectionName = "forgot" ∨ sectionName = "configure" then
    [.handler web]
  else
    [.findInfo] ++
    if !env.config.Configured then
      web.Redirect "/configure"
    else
      let validated := ValidateSession env.securetoken r
        env.clock.validateBefore env.clock.validateAfter env.clock.validateMsg
      [.validateSession r] ++ validated.1 ++
      match validated.2 with
      | .ok session =>
        if session.UserID ≠ "" then
          [.findUser session.UserID] ++
          match env.config.FindUser session.UserID with
          | (_, some _) => signoutHandler env web
          | (user, none) => [.handler { web with User := user, Admin := user.Admin }]
        else
          [.handler { web with Admin := session.Admin }]
      | .error _ =>
        match env.samlSP with
        | none => signinRequired web
        | some sp =>
          [.getSession r] ++ samlDebugLog (sp.GetSession r).2 ++
          match (sp.GetSession r).1 with
          | some session => federatedSignin env web session
          | none => signinRequired web

/-! ## Observations on a trace -/

/-- The `Web` values the wrapped handler was called with, in order. -/
def handlerCalls (t : List Event) : List Web :=
  t.filterMap (fun e => match e with | .handler web => some web | _ => none)

/-- The locations of the redirects issued, in order. -/
def redirects (t : List Event) : List String :=
  t.filterMap (fun e => match e with | .redirect location _ => some location | _ => none)

/-- The cookies set on the response, in order. -/
def cookiesSet (t : List Event) : List Cookie :=
  t.filterMap (fun e => match e with | .setCookie c => some c | _ => none)

/-- The errors passed to `Error`, which logs them before writing the
response. -/
def errorsSurfaced (t : List Event) : List GoError :=
  t.filterMap (fun e => match e with | .logError err => some err | _ => none)

/-- The status codes written with `WriteHeader`, in order. -/
def statusCodes (t : List Event) : List Nat :=
  t.filterMap (fun e => match e with | .writeHeader code => some code | _ => none)

/-- The emails `config.AddUser` was called with, in order. -/
def addUserCalls (t : List Event) : List String :=
  t.filterMap (fun e => match e with | .addUser email => some email | _ => none)

/-- The calls to the identity store (`FindUser`, `FindUserByEmail`,
`AddUser`), in order. -/
def storeCalls (t : List Event) : List Event :=
  t.filter (fun e => match e with
    | .findUser _ => true | .findUserByEmail _ => true | .addUser _ => true | _ => false)

/-- The calls to the federation client, in order. -/
def federationCalls (t : List Event) : List Event :=
  t.filter (fun e => match e with | .getSession _ => true | _ => false)

/-- The session validations started (calls of `ValidateSession` and of the
codec's `Decode`), in order. -/
def validationCalls (t : List Event) : List Event :=
  t.filter (fun e => match e with
    | .validateSession _ => true | .decode _ _ => true | _ => false)

/-- The session records handed to the codec's `Encode`, in order. -/
def sessionsEncoded (t : List Event) : List Session :=
  t.filterMap (fun e => match e with | .encode _ s => some s | _ => none)

/-- What the client and the wrapped handler see of a request: handler calls,
redirects, cookies, status, headers and body; log lines and calls to
collaborators are left out. -/
def outcome (t : List Event) : List Event :=
  t.filter (fun e => match e with
    | .handler _ => true | .redirect _ _ => true | .setCookie _ => true
    | .writeHeader _ => true | .setHeader _ _ => true | .writeErrorPage => true
    | _ => false)

/-- Federation yields no claim for a request: no SAML client is configured,
or `GetSession` returns a nil session (with or without an error). -/
def NoFederatedClaim (env : Env) (r : Request) : Prop :=
  match env.samlSP with
  | none => True
  | some sp => (sp.GetSession r).1 = none

/-- None of the observations below sees anything in the trace `t`: it holds
only reads of the configuration, session validation steps, calls to the
federation client and log lines. -/
def Quiet (t : List Event) : Prop :=
  outcome t = [] ∧ handlerCalls t = [] ∧ redirects t = [] ∧ cookiesSet t = [] ∧
  errorsSurfaced t = [] ∧ statusCodes t = [] ∧ addUserCalls t = [] ∧ storeCalls t = [] ∧
  sessionsEncoded t = []

/-- The lookup by email did not fail: it returned a nil error or
`ErrUserNotFound`. -/
def LookupNotFailed (config : Config) (email : String) : Prop :=
  (config.FindUserByEmail email).2 = none ∨
  (config.FindUserByEmail email).2 = some .ErrUserNotFound

/-- The user was found: the lookup by email did not fail and returned the
record `user`, which has an ID. -/
def UserFound (config : Config) (email : String) (user : User) : Prop :=
  LookupNotFailed config email ∧ (config.FindUserByEmail email).1 = user ∧ user.ID ≠ ""

/-- The user was created: the lookup by email did not fail and returned no
record (empty ID), and `AddUser` returned `user` with a nil error. -/
def UserCreated (config : Config) (email : String) (user : User) : Prop :=
  LookupNotFailed config email ∧ (config.FindUserByEmail email).1.ID = "" ∧
  config.AddUser email = (user, none)

/-- Case (a) of the gateway contract: `ValidateSession` succeeded, and either
the session's `UserID` is empty, the principal being the session's `Admin`
flag and no user, or `FindUser` succeeded for that ID, the principal being
that user and the user's `Admin` flag. -/
def LocalPrincipal (env : Env) (sectionName : String) (r : Request) (web : Web) : Prop :=
  ∃ session,
    (ValidateSession env.securetoken r env.clock.validateBefore env.clock.validateAfter
      env.clock.validateMsg).2 = .ok session ∧
    ((session.UserID = "" ∧
        web = { newWeb env sectionName r with Admin := session.Admin }) ∨
     (session.UserID ≠ "" ∧ ∃ user,
        env.config.FindUser session.UserID = (user, none) ∧
        web = { newWeb env sectionName r with User := user, Admin := user.Admin }))

/-- Case (b) of the gateway contract: `ValidateSession` failed, a SAML client
is configured and returned a claim with a non-empty `Subject`, the user was
found or created, and `SigninSession` succeeded; the principal is that user
and the user's `Admin` flag. -/
def FederatedPrincipal (env : Env) (sectionName : String) (r : Request) (web : Web) : Prop :=
  (∃ e, (ValidateSession env.securetoken r env.clock.validateBefore env.clock.validateAfter
      env.clock.validateMsg).2 = .error e) ∧
  ∃ sp email user,
    env.samlSP = some sp ∧
    (sp.GetSession r).1 = some (.JWTSessionClaims email) ∧
    email ≠ "" ∧
    (UserFound env.config email user ∨ UserCreated env.config email user) ∧
    (SigninSession env.securetoken env.httpHost env.clock.signinExpires
      env.clock.signinNotBefore false user.ID).2 = none ∧
    web = { newWeb env sectionName r with User := user, Admin := user.Admin }

/-- The bypass test of `WebHandler`. -/
def isBypass (sectionName : String) : Prop :=
  sectionName = "signin" ∨ sectionName = "forgot" ∨ sectionName = "configure"

instance (sectionName : String) : Decidable (isBypass sectionName) := by
  unfold isBypass; infer_instance

/-! ## Sample collaborators -/

/-- A codec that knows one token: it encodes `s0` as `tok` and nothing else,
and decodes `tok` to `s0` and nothing else. -/
def oneTokenCodec (tok : String) (s0 : Session) : SecureToken :=
  { Encode := fun _ s => if s = s0 then .ok tok else .error "securetoken: unsupported value",
    Decode := fun _ v => if v = tok then .ok s0 else .error "securetoken: invalid value" }

/-- A store with one user, found under its ID and its email; `AddUser`
creates a non-admin user whose ID is `new-` followed by the email. -/
def oneUserStore (configured : Bool) (u : User) : Config :=
  { Configured := configured,
    FindUser := fun id => if id = u.ID then (u, none) else (User.zero, some .ErrUserNotFound),
    FindUserByEmail := fun email =>
      if email = u.Email then (u, none) else (User.zero, some .ErrUserNotFound),
    AddUser := fun email => ({ ID := "new-" ++ email, Email := email, Admin := false }, none) }

/-- A clock that reads the same instant at every call site. -/
def frozenClock (t : Time) : Clock :=
  { webTime := t, validateBefore := t, validateAfter := t, validateMsg := t,
    signinExpires := t, signinNotBefore := t }

/-- A sample environment: configured, one admin user `u1`, no SAML client,
a codec that knows the token `tok`, every clock reading at instant 5. -/
def sampleEnv : Env :=
  { config := oneUserStore true { ID := "u1", Email := "ann@example.com", Admin := true },
    securetoken := oneTokenCodec "tok" { Admin := false, UserID := "u1", NotBefore := 0, NotAfter := 9 },
    samlSP := none,
    httpHost := "vpn.example.com",
    clock := frozenClock 5 }

/-- A request that carries no cookie. -/
def anonymousRequest : Request := { cookies := [] }

/-- A session record whose window is inverted: it ends at instant 1 and
starts at instant 10. -/
def invertedWindow : Session :=
  { Admin := false, UserID := "u1", NotBefore := 10, NotAfter := 1 }

/-- The session record `SigninSession true ""` builds when both of its clock
readings are instant 100. -/
def issuedAt100 : Session :=
  { Admin := true, UserID := "", NotBefore := 100, NotAfter := 100 + 12 * Hour }

/-- A SAML client that answers every request with a claim for `email`. -/
def claimFor (email : String) : SamlSP :=
  { GetSession := fun _ => (some (.JWTSessionClaims email), none) }

/-- The session record the federated path issues for user `u1` when every
clock reading is instant 5. -/
def federatedSessionAt5 : Session :=
  { Admin := false, UserID := "u1", NotBefore := 5, NotAfter := 5 + 12 * Hour }

/-- The sample environment with a SAML client that presents a claim for
`email`, and a codec that encodes `federatedSessionAt5` as `fed`. -/
def federatedEnv (email : String) : Env :=
  { sampleEnv with
    samlSP := some (claimFor email),
    securetoken := oneTokenCodec "fed" federatedSessionAt5 }

/-! ## Theorems -/

/-! ### Bypass sections and the unconfigured guard -/

theorem webHandler_bypass_trace (env : Env) (sectionName : String) (r : Request)
    (hs : isBypass sectionName) :
    WebHandler env sectionName r = [.findInfo, .handler (newWeb env sectionName r)] := by
  unfold isBypass at hs
  simp [WebHandler, hs]

theorem webHandler_unconfigured_trace (env : Env) (sectionName : String) (r : Request)
    (hs : ¬ isBypass sectionName) (hc : env.config.Configured = false) :
    WebHandler env sectionName r = [.findInfo, .findInfo, .redirect "/configure" 302] := by
  unfold isBypass at hs
  simp [WebHandler, hs, hc, Web.Redirect]

/-- C7: for a request whose section is signin, forgot or configure,
`WebHandler` reads the configuration info and calls the handler, once, with
the freshly built `Web`; it issues no redirect, validates no session, calls
neither the identity store nor the federation client, surfaces no error and
sets no cookie, whatever the configured flag, the cookies and the SAML client
are. -/
theorem C7_bypass_dispatches_without_checks (env : Env) (sectionName : String) (r : Request)
    (hs : isBypass sectionName) :
    WebHandler env sectionName r = [.findInfo, .handler (newWeb env sectionName r)] ∧
    handlerCalls (WebHandler env sectionName r) = [newWeb env sectionName r] ∧
    redirects (WebHandler env sectionName r) = [] ∧
    validationCalls (WebHandler env sectionName r) = [] ∧
    storeCalls (WebHandler env sectionName r) = [] ∧
    federationCalls (WebHandler env sectionName r) = [] ∧
    errorsSurfaced (WebHandler env sectionName r) = [] ∧
    statusCodes (WebHandler env sectionName r) = [] ∧
    cookiesSet (WebHandler env sectionName r) = [] := by
  rw [webHandler_bypass_trace env sectionName r hs]
  simp [handlerCalls, redirects, validationCalls, storeCalls, federationCalls,
    errorsSurfaced, statusCodes, cookiesSet]

theorem C7_bypass_witness :
    isBypass "signin" ∧
    handlerCalls (WebHandler { sampleEnv with config := oneUserStore false User.zero }
      "signin" anonymousRequest) =
      [newWeb { sampleEnv with config := oneUserStore false User.zero } "signin" anonymousRequest] ∧
    redirects (WebHandler { sampleEnv with config := oneUserStore false User.zero }
      "signin" anonymousRequest) = [] :=
  ⟨by decide,
   (C7_bypass_dispatches_without_checks _ "signin" anonymousRequest (by decide)).2.1,
   (C7_bypass_dispatches_without_checks _ "signin" anonymousRequest (by decide)).2.2.1⟩

/-- C10: for a request to a non-bypass section while the system is not
configured, the whole trace of `WebHandler` is two reads of the configuration
info followed by one redirect to `/configure`.  The trace does not depend on
the request, the codec, the store or the SAML client, so it is the same with
a valid session, an invalid one, none, or a federated claim; the handler is
not called, no session is validated, no identity is looked up, the federation
client is not called and no cookie is issued. -/
theorem C10_unconfigured_redirects_to_configure (env : Env) (sectionName : String)
    (r : Request) (hs : ¬ isBypass sectionName) (hc : env.config.Configured = false) :
    WebHandler env sectionName r = [.findInfo, .findInfo, .redirect "/configure" 302] ∧
    redirects (WebHandler env sectionName r) = ["/configure"] ∧
    handlerCalls (WebHandler env sectionName r) = [] ∧
    validationCalls (WebHandler env sectionName r) = [] ∧
    storeCalls (WebHandler env sectionName r) = [] ∧
    federationCalls (WebHandler env sectionName r) = [] ∧
    sessionsEncoded (WebHandler env sectionName r) = [] ∧
    cookiesSet (WebHandler env sectionName r) = [] := by
  rw [webHandler_unconfigured_trace env sectionName r hs hc]
  simp [handlerCalls, redirects, validationCalls, storeCalls, federationCalls,
    sessionsEncoded, cookiesSet]

theorem C10_unconfigured_witness :
    ¬ isBypass "profile" ∧
    WebHandler { sampleEnv with config := oneUserStore false User.zero } "profile"
      { cookies := [(SessionCookieName, "tok")] } =
      [.findInfo, .findInfo, .redirect "/configure" 302] :=
  ⟨by decide,
   (C10_unconfigured_redirects_to_configure _ "profile" _ (by decide) rfl).1⟩

/-! ### The session manager -/

theorem validateSession_of_decoded (st : SecureToken) (r : Request) (value : String)
    (s : Session) (nowBefore nowAfter nowMsg : Time)
    (hcookie : r.Cookie SessionCookieName = some value)
    (hdec : st.Decode SessionCookieName value = .ok s) :
    (ValidateSession st r nowBefore nowAfter nowMsg).2 =
      if nowBefore < s.NotBefore then .error .beforeValid
      else if s.NotAfter < nowAfter then .error (.expired s.NotAfter nowMsg)
      else .ok s := by
  unfold ValidateSession
  rw [hcookie]
  simp only [hdec]
  split_ifs <;> rfl

/-- C2: if `SigninSession admin userID` succeeds, the cookie it sets is
presented as the session cookie, the codec's `Decode` inverts its `Encode`
for the name `__subspace_session`, and the clock readings of
`ValidateSession` are not earlier than the issuing reading of `NotBefore` and
less than 12 hours after the issuing reading of `expires`, then
`ValidateSession` succeeds with a session that has the same `Admin` and
`UserID`. -/
theorem C2_signin_then_validate_roundtrip (st : SecureToken) (host : String)
    (admin : Bool) (userID : String)
    (nowExpires nowNotBefore nowBefore nowAfter nowMsg : Time) (c : Cookie) (r : Request)
    (hcodec : ∀ s tok, st.Encode SessionCookieName s = .ok tok →
      st.Decode SessionCookieName tok = .ok s)
    (hok : (SigninSession st host nowExpires nowNotBefore admin userID).2 = none)
    (hset : c ∈ cookiesSet (SigninSession st host nowExpires nowNotBefore admin userID).1)
    (hr : r.Cookie SessionCookieName = some c.Value)
    (hfrom : nowNotBefore ≤ nowBefore) (hto : nowAfter < nowExpires + 12 * Hour) :
    ∃ s, (ValidateSession st r nowBefore nowAfter nowMsg).2 = .ok s ∧
      s.Admin = admin ∧ s.UserID = userID := by
  unfold SigninSession at hok hset
  simp only at hok hset
  cases henc : st.Encode SessionCookieName
      { Admin := admin, UserID := userID, NotBefore := nowNotBefore,
        NotAfter := nowExpires + 12 * Hour } with
  | error msg => rw [henc] at hok; simp at hok
  | ok encoded =>
    rw [henc] at hset
    simp [cookiesSet] at hset
    subst hset
    have hdec := hcodec _ _ henc
    refine ⟨Session.mk admin userID nowNotBefore (nowExpires + 12 * Hour), ?_, rfl, rfl⟩
    rw [validateSession_of_decoded st r encoded _ nowBefore nowAfter nowMsg hr hdec]
    simp only
    rw [if_neg (not_lt.mpr hfrom), if_neg (not_lt.mpr (le_of_lt hto))]

theorem oneTokenCodec_inverts (tok : String) (s0 : Session) :
    ∀ s t, (oneTokenCodec tok s0).Encode SessionCookieName s = .ok t →
      (oneTokenCodec tok s0).Decode SessionCookieName t = .ok s := by
  intro s t h
  unfold oneTokenCodec at h ⊢
  simp only at h ⊢
  by_cases hs : s = s0
  · rw [if_pos hs] at h
    cases h
    rw [if_pos rfl, hs]
  · rw [if_neg hs] at h
    cases h

theorem C2_roundtrip_witness :
    ∃ s, (ValidateSession (oneTokenCodec "tok" issuedAt100)
        { cookies := [(SessionCookieName, "tok")] } 100 (100 + 12 * Hour - 1) 0).2 = .ok s ∧
      s.Admin = true ∧ s.UserID = "" :=
  C2_signin_then_validate_roundtrip (oneTokenCodec "tok" issuedAt100) "vpn.example.com"
    true "" 100 100 100 (100 + 12 * Hour - 1) 0
    { Name := SessionCookieName, Value := "tok", Path := "/", HttpOnly := true,
      Domain := "vpn.example.com", MaxAge := 0, Expires := 100 + 12 * Hour }
    { cookies := [(SessionCookieName, "tok")] }
    (oneTokenCodec_inverts "tok" issuedAt100)
    (by decide) (by decide) (by decide) (by decide) (by decide)

/-- C3, counterexample: the cookie decodes to a record whose `NotAfter`
(instant 1) is earlier than every clock reading (instant 5), yet
`ValidateSession` fails with the before-valid error, because the record's
`NotBefore` (instant 10) is later than the clock. -/
theorem C3_counterexample_before_valid_precedes :
    (oneTokenCodec "tok" invertedWindow).Decode SessionCookieName "tok" = .ok invertedWindow ∧
    invertedWindow.NotAfter < 5 ∧
    (ValidateSession (oneTokenCodec "tok" invertedWindow)
      { cookies := [(SessionCookieName, "tok")] } 5 5 5).2 = .error .beforeValid ∧
    (ValidateSession (oneTokenCodec "tok" invertedWindow)
      { cookies := [(SessionCookieName, "tok")] } 5 5 5).2 ≠ .error (.expired 1 5) := by
  decide

/-- C3, amended: when the session cookie decodes to a record whose
`NotBefore` is not later than the clock (at the before-check) and whose
`NotAfter` is earlier than the clock (at the after-check), `ValidateSession`
returns no session and fails with the session-expired error, whatever the
record's `Admin` and `UserID` are. -/
theorem C3_expired_once_window_started (st : SecureToken) (r : Request) (value : String)
    (s : Session) (nowBefore nowAfter nowMsg : Time)
    (hcookie : r.Cookie SessionCookieName = some value)
    (hdec : st.Decode SessionCookieName value = .ok s)
    (hstarted : s.NotBefore ≤ nowBefore) (hexpired : s.NotAfter < nowAfter) :
    (ValidateSession st r nowBefore nowAfter nowMsg).2 = .error (.expired s.NotAfter nowMsg) := by
  rw [validateSession_of_decoded st r value s nowBefore nowAfter nowMsg hcookie hdec]
  rw [if_neg (not_lt.mpr hstarted), if_pos hexpired]

theorem C3_expired_witness :
    (ValidateSession sampleEnv.securetoken { cookies := [(SessionCookieName, "tok")] }
      20 20 21).2 = .error (.expired 9 21) :=
  C3_expired_once_window_started sampleEnv.securetoken
    { cookies := [(SessionCookieName, "tok")] } "tok"
    { Admin := false, UserID := "u1", NotBefore := 0, NotAfter := 9 } 20 20 21
    (by decide) (by decide) (by decide) (by decide)

/-- C4, counterexample: the `__subspace_session` cookie that `SignoutSession`
sets has the empty string as its value, no session record is encoded, and a
request presenting that value to `ValidateSession` (here with a codec that
rejects every value but `tok`) fails with the codec's decode error, which is
not the session-expired error. -/
theorem C4_counterexample_signout_cookie_is_empty :
    cookiesSet (SignoutSession none "vpn.example.com") =
      [{ Name := SessionCookieName, Value := "", Path := "/", HttpOnly := true,
         Domain := "vpn.example.com", MaxAge := -1, Expires := Unix 1 }] ∧
    sessionsEncoded (SignoutSession none "vpn.example.com") = [] ∧
    (ValidateSession sampleEnv.securetoken { cookies := [(SessionCookieName, "")] } 5 5 5).2 =
      .error (.codec "securetoken: invalid value") := by
  decide

/-- C4, amended: `SignoutSession` encodes no session record.  It sets exactly
one cookie named `__subspace_session`; that cookie has the empty value,
`MaxAge` -1 and `Expires` one second after the Unix epoch.  A request that
presents that value as its session cookie, to a codec that rejects the empty
value, makes `ValidateSession` fail with the codec's decode error: neither the
missing-cookie error nor the session-expired error. -/
theorem C4_signout_sets_empty_expired_cookie (samlSP : Option SamlSP) (host : String)
    (st : SecureToken) (r : Request) (msg : String) (nowBefore nowAfter nowMsg : Time)
    (hreject : st.Decode SessionCookieName "" = .error msg)
    (hr : r.Cookie SessionCookieName = some "") :
    sessionsEncoded (SignoutSession samlSP host) = [] ∧
    (cookiesSet (SignoutSession samlSP host)).filter (fun c => c.Name == SessionCookieName) =
      [{ Name := SessionCookieName, Value := "", Path := "/", HttpOnly := true,
         Domain := host, MaxAge := -1, Expires := Unix 1 }] ∧
    (ValidateSession st r nowBefore nowAfter nowMsg).2 = .error (.codec msg) := by
  refine ⟨?_, ?_, ?_⟩
  · cases samlSP <;> simp [SignoutSession, sessionsEncoded]
  · have hne : (SessionCookieNameSSO == SessionCookieName) = false := by decide
    cases samlSP <;> simp [SignoutSession, cookiesSet, hne]
  · unfold ValidateSession
    rw [hr]
    simp only [hreject]

theorem C4_signout_witness :
    sessionsEncoded (SignoutSession none "vpn.example.com") = [] ∧
    (cookiesSet (SignoutSession none "vpn.example.com")).filter
        (fun c => c.Name == SessionCookieName) =
      [{ Name := SessionCookieName, Value := "", Path := "/", HttpOnly := true,
         Domain := "vpn.example.com", MaxAge := -1, Expires := Unix 1 }] ∧
    (ValidateSession sampleEnv.securetoken { cookies := [(SessionCookieName, "")] } 7 7 7).2 =
      .error (.codec "securetoken: invalid value") :=
  C4_signout_sets_empty_expired_cookie none "vpn.example.com" sampleEnv.securetoken
    { cookies := [(SessionCookieName, "")] } "securetoken: invalid value" 7 7 7
    (by decide) (by decide)

/-! ### The protected path of `WebHandler` -/

theorem validateSession_events (st : SecureToken) (r : Request)
    (nowBefore nowAfter nowMsg : Time) :
    (ValidateSession st r nowBefore nowAfter nowMsg).1 = [] ∨
    ∃ value, (ValidateSession st r nowBefore nowAfter nowMsg).1 =
      [.decode SessionCookieName value] := by
  unfold ValidateSession
  cases r.Cookie SessionCookieName with
  | none => exact Or.inl rfl
  | some value =>
    refine Or.inr ⟨value, ?_⟩
    simp only
    cases st.Decode SessionCookieName value with
    | error msg => rfl
    | ok session =>
      simp only
      split_ifs <;> rfl

theorem samlDebugLog_cases (err : Option String) :
    samlDebugLog err = [] ∨ ∃ level format args, samlDebugLog err = [.log level format args] := by
  cases err with
  | none => exact Or.inl rfl
  | some msg => exact Or.inr ⟨_, _, _, rfl⟩

theorem request_withoutCookie_cookie (r : Request) (name : String) :
    (r.withoutCookie name).Cookie name = none := by
  unfold Request.Cookie Request.withoutCookie
  simp only [Option.map_eq_none', List.find?_eq_none, List.mem_filter]
  rintro c ⟨_, hc⟩
  simpa using hc

theorem validateSession_withoutCookie (st : SecureToken) (r : Request)
    (nowBefore nowAfter nowMsg : Time) :
    ValidateSession st (r.withoutCookie SessionCookieName) nowBefore nowAfter nowMsg =
      ([], .error .missingCookie) := by
  unfold ValidateSession
  rw [request_withoutCookie_cookie]

/-- The trace of a request to a protected section of a configured system
whose session does not validate and for which federation yields no claim. -/
theorem webHandler_signin_required_trace (env : Env) (sectionName : String) (r : Request)
    (e : GoError) (hs : ¬ isBypass sectionName) (hc : env.config.Configured = true)
    (hv : (ValidateSession env.securetoken r env.clock.validateBefore env.clock.validateAfter
      env.clock.validateMsg).2 = .error e)
    (hfed : NoFederatedClaim env r) :
    WebHandler env sectionName r =
      [.findInfo, .findInfo, .validateSession r] ++
      (ValidateSession env.securetoken r env.clock.validateBefore env.clock.validateAfter
        env.clock.validateMsg).1 ++
      (match env.samlSP with
       | none => []
       | some sp => [.getSession r] ++ samlDebugLog (sp.GetSession r).2) ++
      [.log .warn "auth: sign in required" [], .redirect "/signin" 302] := by
  unfold isBypass at hs
  unfold NoFederatedClaim at hfed
  unfold WebHandler
  simp only [hs, hc, if_false, hv]
  cases hsp : env.samlSP with
  | none => simp [signinRequired, Web.Redirect]
  | some sp =>
    rw [hsp] at hfed
    simp only at hfed
    simp [hfed, signinRequired, Web.Redirect]

/-- What is observed of a request that ends in the sign-in redirect. -/
theorem webHandler_signin_required_observed (env : Env) (sectionName : String)
    (r : Request) (e : GoError) (hs : ¬ isBypass sectionName)
    (hc : env.config.Configured = true)
    (hv : (ValidateSession env.securetoken r env.clock.validateBefore env.clock.validateAfter
      env.clock.validateMsg).2 = .error e)
    (hfed : NoFederatedClaim env r) :
    outcome (WebHandler env sectionName r) = [.redirect "/signin" 302] ∧
    redirects (WebHandler env sectionName r) = ["/signin"] ∧
    handlerCalls (WebHandler env sectionName r) = [] ∧
    errorsSurfaced (WebHandler env sectionName r) = [] ∧
    statusCodes (WebHandler env sectionName r) = [] ∧
    sessionsEncoded (WebHandler env sectionName r) = [] ∧
    cookiesSet (WebHandler env sectionName r) = [] := by
  rw [webHandler_signin_required_trace env sectionName r e hs hc hv hfed]
  rcases validateSession_events env.securetoken r env.clock.validateBefore
    env.clock.validateAfter env.clock.validateMsg with hev | ⟨value, hev⟩ <;>
  rw [hev] <;>
  cases env.samlSP with
  | none =>
    simp [outcome, redirects, handlerCalls, errorsSurfaced, statusCodes, sessionsEncoded,
      cookiesSet]
  | some sp =>
    rcases samlDebugLog_cases (sp.GetSession r).2 with hlog | ⟨level, format, args, hlog⟩ <;>
    simp [hlog, outcome, redirects, handlerCalls, errorsSurfaced, statusCodes,
      sessionsEncoded, cookiesSet]

/-- C6: for a request to a non-bypass section of a configured system, if
`ValidateSession` fails (with any error) and federation yields no claim (no
SAML client, or `GetSession` returns nil, with or without an error), then
`WebHandler` issues exactly one redirect, to `/signin`, and nothing else
reaches the client: the handler is not called, no error is surfaced, no status
is written, no session is encoded and no cookie is set.  The same request
with its session cookie removed, again with no federated claim, has the same
outcome. -/
theorem C6_no_session_no_claim_redirects_to_signin (env : Env) (sectionName : String)
    (r : Request) (e : GoError) (hs : ¬ isBypass sectionName)
    (hc : env.config.Configured = true)
    (hv : (ValidateSession env.securetoken r env.clock.validateBefore env.clock.validateAfter
      env.clock.validateMsg).2 = .error e)
    (hfed : NoFederatedClaim env r) :
    outcome (WebHandler env sectionName r) = [.redirect "/signin" 302] ∧
    redirects (WebHandler env sectionName r) = ["/signin"] ∧
    handlerCalls (WebHandler env sectionName r) = [] ∧
    errorsSurfaced (WebHandler env sectionName r) = [] ∧
    statusCodes (WebHandler env sectionName r) = [] ∧
    sessionsEncoded (WebHandler env sectionName r) = [] ∧
    cookiesSet (WebHandler env sectionName r) = [] ∧
    (NoFederatedClaim env (r.withoutCookie SessionCookieName) →
      outcome (WebHandler env sectionName (r.withoutCookie SessionCookieName)) =
        outcome (WebHandler env sectionName r)) := by
  obtain ⟨h1, h2, h3, h4, h5, h6, h7⟩ :=
    webHandler_signin_required_observed env sectionName r e hs hc hv hfed
  refine ⟨h1, h2, h3, h4, h5, h6, h7, ?_⟩
  intro hfed2
  have hv2 : (ValidateSession env.securetoken (r.withoutCookie SessionCookieName)
      env.clock.validateBefore env.clock.validateAfter env.clock.validateMsg).2 =
      .error .missingCookie := by
    rw [validateSession_withoutCookie]
  rw [(webHandler_signin_required_observed env sectionName _ _ hs hc hv2 hfed2).1, h1]

theorem C6_signin_required_witness :
    outcome (WebHandler sampleEnv "profile" { cookies := [(SessionCookieName, "garbage")] }) =
      [.redirect "/signin" 302] :=
  (C6_no_session_no_claim_redirects_to_signin sampleEnv "profile"
    { cookies := [(SessionCookieName, "garbage")] } (.codec "securetoken: invalid value")
    (by decide) (by decide) (by decide) (by simp [NoFederatedClaim, sampleEnv])).1

/-! ### The federated step -/

/-- The trace of a request that reaches the federated step and for which
`GetSession` returns a session: a quiet head, then `federatedSignin`. -/
theorem webHandler_federated_trace (env : Env) (sectionName : String) (r : Request)
    (e : GoError) (sp : SamlSP) (session : SamlSession)
    (hs : ¬ isBypass sectionName) (hc : env.config.Configured = true)
    (hv : (ValidateSession env.securetoken r env.clock.validateBefore env.clock.validateAfter
      env.clock.validateMsg).2 = .error e)
    (hsp : env.samlSP = some sp) (hget : (sp.GetSession r).1 = some session) :
    ∃ head, Quiet head ∧
      WebHandler env sectionName r =
        head ++ federatedSignin env (newWeb env sectionName r) session := by
  refine ⟨[.findInfo, .findInfo, .validateSession r] ++
      (ValidateSession env.securetoken r env.clock.validateBefore env.clock.validateAfter
        env.clock.validateMsg).1 ++
      ([.getSession r] ++ samlDebugLog (sp.GetSession r).2), ?_, ?_⟩
  · unfold Quiet
    rcases validateSession_events env.securetoken r env.clock.validateBefore
      env.clock.validateAfter env.clock.validateMsg with hev | ⟨value, hev⟩ <;>
    rcases samlDebugLog_cases (sp.GetSession r).2 with hlog | ⟨level, format, args, hlog⟩ <;>
    simp [hev, hlog, outcome, redirects, handlerCalls, errorsSurfaced, statusCodes,
      sessionsEncoded, cookiesSet, addUserCalls, storeCalls]
  · unfold isBypass at hs
    unfold WebHandler
    simp only [hs, hc, if_false, hv, hsp, hget]
    simp

/-- C8: when a request reaches the federated step (non-bypass section,
configured system, `ValidateSession` failed, SAML client configured) and the
SAML client returns a claim whose `Subject` is empty, `WebHandler` surfaces
the missing-email error as a 500 response and does nothing else that can be
observed: the handler is not called, no redirect is issued, the identity store
is neither queried nor asked to create a user, no session is encoded and no
cookie is set. -/
theorem C8_empty_subject_is_an_error (env : Env) (sectionName : String) (r : Request)
    (e : GoError) (sp : SamlSP)
    (hs : ¬ isBypass sectionName) (hc : env.config.Configured = true)
    (hv : (ValidateSession env.securetoken r env.clock.validateBefore env.clock.validateAfter
      env.clock.validateMsg).2 = .error e)
    (hsp : env.samlSP = some sp)
    (hget : (sp.GetSession r).1 = some (.JWTSessionClaims "")) :
    errorsSurfaced (WebHandler env sectionName r) = [.samlMissingEmail] ∧
    statusCodes (WebHandler env sectionName r) = [500] ∧
    outcome (WebHandler env sectionName r) =
      [.writeHeader 500, .setHeader "Content-Type" "text/html; charset=utf-8",
       .writeErrorPage] ∧
    handlerCalls (WebHandler env sectionName r) = [] ∧
    redirects (WebHandler env sectionName r) = [] ∧
    storeCalls (WebHandler env sectionName r) = [] ∧
    sessionsEncoded (WebHandler env sectionName r) = [] ∧
    cookiesSet (WebHandler env sectionName r) = [] := by
  obtain ⟨head, hq, ht⟩ := webHandler_federated_trace env sectionName r e sp _ hs hc hv hsp hget
  unfold Quiet at hq
  obtain ⟨q1, q2, q3, q4, q5, q6, q7, q8, q9⟩ := hq
  rw [ht]
  unfold outcome handlerCalls redirects cookiesSet errorsSurfaced statusCodes addUserCalls
    storeCalls sessionsEncoded at *
  simp only [List.filterMap_append, List.filter_append, q1, q2, q3, q4, q5, q6, q8, q9]
  simp [federatedSignin, Error]

theorem C8_empty_subject_witness :
    errorsSurfaced (WebHandler (federatedEnv "") "profile" anonymousRequest) =
      [.samlMissingEmail] ∧
    redirects (WebHandler (federatedEnv "") "profile" anonymousRequest) = [] :=
  ⟨(C8_empty_subject_is_an_error (federatedEnv "") "profile" anonymousRequest .missingCookie
      (claimFor "") (by decide) (by decide) (by decide) rfl rfl).1,
   (C8_empty_subject_is_an_error (federatedEnv "") "profile" anonymousRequest .missingCookie
      (claimFor "") (by decide) (by decide) (by decide) rfl rfl).2.2.2.2.1⟩

theorem signinSession_cases (st : SecureToken) (host : String) (nowExpires nowNotBefore : Time)
    (admin : Bool) (userID : String) :
    (∃ msg, SigninSession st host nowExpires nowNotBefore admin userID =
      ([.encode SessionCookieName
          (Session.mk admin userID nowNotBefore (nowExpires + 12 * Hour))],
        some (.encodingError msg))) ∨
    (∃ encoded,
      st.Encode SessionCookieName
        (Session.mk admin userID nowNotBefore (nowExpires + 12 * Hour)) = .ok encoded ∧
      SigninSession st host nowExpires nowNotBefore admin userID =
      ([.encode SessionCookieName
          (Session.mk admin userID nowNotBefore (nowExpires + 12 * Hour)),
        .setCookie (Cookie.mk SessionCookieName encoded "/" true host 0
          (nowExpires + 12 * Hour))],
        none)) := by
  unfold SigninSession
  simp only
  cases h : st.Encode SessionCookieName
      (Session.mk admin userID nowNotBefore (nowExpires + 12 * Hour)) with
  | error msg => exact Or.inl ⟨msg, rfl⟩
  | ok encoded => exact Or.inr ⟨encoded, rfl, rfl⟩

/-- What `federatedDispatch` does: it encodes one session record, with
`Admin` false and the user's ID, and calls neither the store nor `Redirect`;
it calls the handler exactly when `SigninSession` succeeds. -/
theorem federatedDispatch_observed (env : Env) (web : Web) (user : User) :
    sessionsEncoded (federatedDispatch env web user) =
      [Session.mk false user.ID env.clock.signinNotBefore
        (env.clock.signinExpires + 12 * Hour)] ∧
    addUserCalls (federatedDispatch env web user) = [] ∧
    storeCalls (federatedDispatch env web user) = [] ∧
    redirects (federatedDispatch env web user) = [] ∧
    handlerCalls (federatedDispatch env web user) =
      (if (SigninSession env.securetoken env.httpHost env.clock.signinExpires
          env.clock.signinNotBefore false user.ID).2 = none
       then [{ web with User := user, Admin := user.Admin }] else []) ∧
    (∀ encoded, env.securetoken.Encode SessionCookieName
        (Session.mk false user.ID env.clock.signinNotBefore
          (env.clock.signinExpires + 12 * Hour)) = .ok encoded →
      cookiesSet (federatedDispatch env web user) =
        [Cookie.mk SessionCookieName encoded "/" true env.httpHost 0
          (env.clock.signinExpires + 12 * Hour)] ∧
      handlerCalls (federatedDispatch env web user) =
        [{ web with User := user, Admin := user.Admin }]) := by
  unfold federatedDispatch
  rcases signinSession_cases env.securetoken env.httpHost env.clock.signinExpires
    env.clock.signinNotBefore false user.ID with ⟨msg, h⟩ | ⟨encoded, henc, h⟩
  · simp only [h]
    refine ⟨by simp [sessionsEncoded, Error], by simp [addUserCalls, Error],
      by simp [storeCalls, Error], by simp [redirects, Error],
      by simp [handlerCalls, Error], ?_⟩
    intro encoded henc
    have := congrArg Prod.snd h
    unfold SigninSession at this
    simp only [henc] at this
    cases this
  · simp only [h]
    refine ⟨by simp [sessionsEncoded], by simp [addUserCalls],
      by simp [storeCalls], by simp [redirects], by simp [handlerCalls], ?_⟩
    intro encoded2 henc2
    rw [henc] at henc2
    cases henc2
    exact ⟨by simp [cookiesSet], by simp [handlerCalls]⟩

/-- Once the claim carries an email and the user is found or created,
`federatedSignin` ends in `federatedDispatch` for that user; before it, the
store is asked for the user (and to create it when it was not found). -/
theorem federatedSignin_resolved (env : Env) (web : Web) (email : String) (user : User)
    (hemail : email ≠ "")
    (hres : UserFound env.config email user ∨ UserCreated env.config email user) :
    ∃ head, sessionsEncoded head = [] ∧ cookiesSet head = [] ∧ handlerCalls head = [] ∧
      redirects head = [] ∧ errorsSurfaced head = [] ∧
      federatedSignin env web (.JWTSessionClaims email) =
        head ++ federatedDispatch env web user := by
  unfold federatedSignin
  simp only [hemail, if_false]
  unfold UserFound UserCreated LookupNotFailed at hres
  rcases hfind : env.config.FindUserByEmail email with ⟨u, err⟩
  rw [hfind] at hres
  simp only at hres
  rcases hres with ⟨hnf, hu, hid⟩ | ⟨hnf, hid, hadd⟩
  · subst hu
    refine ⟨[.log .info "SAML: finding user with email %q" [email], .findUserByEmail email],
      by simp [sessionsEncoded], by simp [cookiesSet], by simp [handlerCalls],
      by simp [redirects], by simp [errorsSurfaced], ?_⟩
    rcases hnf with h | h <;> subst h <;> simp [hid]
  · refine ⟨[.log .info "SAML: finding user with email %q" [email], .findUserByEmail email,
       .log .info "SAML: creating user with email %q" [email], .addUser email],
      by simp [sessionsEncoded], by simp [cookiesSet], by simp [handlerCalls],
      by simp [redirects], by simp [errorsSurfaced], ?_⟩
    rcases hnf with h | h <;> subst h <;> simp [hid, hadd]

/-- C5, counterexample: on the federated path, for the resolved user `u1`,
whose `Admin` flag is true, the session record handed to the codec has
`Admin` false; the handler is called with `Admin` true. -/
theorem C5_counterexample_session_admin_is_false :
    (federatedEnv "ann@example.com").config.FindUserByEmail "ann@example.com" =
      ({ ID := "u1", Email := "ann@example.com", Admin := true }, none) ∧
    sessionsEncoded (WebHandler (federatedEnv "ann@example.com") "profile" anonymousRequest) =
      [{ Admin := false, UserID := "u1", NotBefore := 5, NotAfter := 5 + 12 * Hour }] ∧
    cookiesSet (WebHandler (federatedEnv "ann@example.com") "profile" anonymousRequest) =
      [{ Name := SessionCookieName, Value := "fed", Path := "/", HttpOnly := true,
         Domain := "vpn.example.com", MaxAge := 0, Expires := 5 + 12 * Hour }] ∧
    handlerCalls (WebHandler (federatedEnv "ann@example.com") "profile" anonymousRequest) =
      [{ newWeb (federatedEnv "ann@example.com") "profile" anonymousRequest with
         User := { ID := "u1", Email := "ann@example.com", Admin := true }, Admin := true }] := by
  decide

/-- C5, amended: on the federated path (no valid local session, SAML claim
with a non-empty `Subject`, user found or created), `WebHandler` hands exactly
one session record to the codec; its `Admin` is false, whatever the user's
`Admin` flag is, and its `UserID` is the resolved user's ID.  When the codec
encodes it, the token is the value of the one cookie set, and the handler is
called with `User` set to the resolved user and `Admin` to that user's
`Admin` flag. -/
theorem C5_federated_session_has_user_id_and_no_admin (env : Env) (sectionName : String)
    (r : Request) (e : GoError) (sp : SamlSP) (email : String) (user : User)
    (hs : ¬ isBypass sectionName) (hc : env.config.Configured = true)
    (hv : (ValidateSession env.securetoken r env.clock.validateBefore env.clock.validateAfter
      env.clock.validateMsg).2 = .error e)
    (hsp : env.samlSP = some sp)
    (hget : (sp.GetSession r).1 = some (.JWTSessionClaims email))
    (hemail : email ≠ "")
    (hres : UserFound env.config email user ∨ UserCreated env.config email user) :
    sessionsEncoded (WebHandler env sectionName r) =
      [{ Admin := false, UserID := user.ID, NotBefore := env.clock.signinNotBefore,
         NotAfter := env.clock.signinExpires + 12 * Hour }] ∧
    ∀ encoded, env.securetoken.Encode SessionCookieName
        { Admin := false, UserID := user.ID, NotBefore := env.clock.signinNotBefore,
          NotAfter := env.clock.signinExpires + 12 * Hour } = .ok encoded →
      cookiesSet (WebHandler env sectionName r) =
        [{ Name := SessionCookieName, Value := encoded, Path := "/", HttpOnly := true,
           Domain := env.httpHost, MaxAge := 0,
           Expires := env.clock.signinExpires + 12 * Hour }] ∧
      handlerCalls (WebHandler env sectionName r) =
        [{ newWeb env sectionName r with User := user, Admin := user.Admin }] := by
  obtain ⟨head, hq, ht⟩ := webHandler_federated_trace env sectionName r e sp _ hs hc hv hsp hget
  obtain ⟨head2, h1, h2, h3, _, _, ht2⟩ :=
    federatedSignin_resolved env (newWeb env sectionName r) email user hemail hres
  obtain ⟨d1, _, _, _, _, d6⟩ := federatedDispatch_observed env (newWeb env sectionName r) user
  unfold Quiet at hq
  obtain ⟨_, q2, _, q4, _, _, _, _, q9⟩ := hq
  rw [ht, ht2]
  unfold sessionsEncoded cookiesSet handlerCalls at *
  refine ⟨by simp only [List.filterMap_append, q9, h1, d1, List.nil_append], ?_⟩
  intro encoded henc
  obtain ⟨c1, c2⟩ := d6 encoded henc
  exact ⟨by simp only [List.filterMap_append, q4, h2, c1, List.nil_append],
    by simp only [List.filterMap_append, q2, h3, c2, List.nil_append]⟩

theorem C5_federated_session_witness :
    sessionsEncoded (WebHandler (federatedEnv "ann@example.com") "profile" anonymousRequest) =
      [{ Admin := false, UserID := "u1", NotBefore := 5, NotAfter := 5 + 12 * Hour }] :=
  (C5_federated_session_has_user_id_and_no_admin (federatedEnv "ann@example.com") "profile"
    anonymousRequest .missingCookie (claimFor "ann@example.com") "ann@example.com"
    { ID := "u1", Email := "ann@example.com", Admin := true }
    (by decide) (by decide) (by decide) rfl rfl (by decide)
    (Or.inl ⟨Or.inl (by decide), by decide, by decide⟩)).1

/-- C9: for a federated claim with a non-empty email that reaches the
federated step: if `FindUserByEmail` reports not-found (the error
`ErrUserNotFound` and no user record, that is an empty ID), `AddUser` is
called exactly once, with that email; if `FindUserByEmail` returns an existing
user (nil error, a record with an ID), `AddUser` is not called; if
`FindUserByEmail` fails with another error, that error is surfaced as a 500
response, `AddUser` is not called, no session is encoded, no cookie is set and
the handler is not called. -/
theorem C9_provisioning_follows_lookup (env : Env) (sectionName : String) (r : Request)
    (e : GoError) (sp : SamlSP) (email : String)
    (hs : ¬ isBypass sectionName) (hc : env.config.Configured = true)
    (hv : (ValidateSession env.securetoken r env.clock.validateBefore env.clock.validateAfter
      env.clock.validateMsg).2 = .error e)
    (hsp : env.samlSP = some sp)
    (hget : (sp.GetSession r).1 = some (.JWTSessionClaims email))
    (hemail : email ≠ "") :
    (∀ u, env.config.FindUserByEmail email = (u, some .ErrUserNotFound) → u.ID = "" →
      addUserCalls (WebHandler env sectionName r) = [email]) ∧
    (∀ u, env.config.FindUserByEmail email = (u, none) → u.ID ≠ "" →
      addUserCalls (WebHandler env sectionName r) = []) ∧
    (∀ u msg, env.config.FindUserByEmail email = (u, some (.failure msg)) →
      errorsSurfaced (WebHandler env sectionName r) = [.store msg] ∧
      statusCodes (WebHandler env sectionName r) = [500] ∧
      addUserCalls (WebHandler env sectionName r) = [] ∧
      sessionsEncoded (WebHandler env sectionName r) = [] ∧
      cookiesSet (WebHandler env sectionName r) = [] ∧
      handlerCalls (WebHandler env sectionName r) = []) := by
  obtain ⟨head, hq, ht⟩ := webHandler_federated_trace env sectionName r e sp _ hs hc hv hsp hget
  unfold Quiet at hq
  obtain ⟨_, q2, _, q4, q5, q6, q7, _, q9⟩ := hq
  rw [ht]
  refine ⟨?_, ?_, ?_⟩
  · intro u hfind hid
    have hd := (federatedDispatch_observed env (newWeb env sectionName r)
      (env.config.AddUser email).1).2.1
    unfold addUserCalls at *
    rw [List.filterMap_append, q7]
    unfold federatedSignin
    simp only [hemail, if_false, hfind, hid, if_true]
    rcases hadd : env.config.AddUser email with ⟨created, aerr⟩
    rw [hadd] at hd
    cases aerr with
    | some err => simp [Error]
    | none =>
      simp only [List.filterMap_append, hd]
      simp
  · intro u hfind hid
    have hd := (federatedDispatch_observed env (newWeb env sectionName r) u).2.1
    unfold addUserCalls at *
    rw [List.filterMap_append, q7]
    unfold federatedSignin
    simp only [hemail, if_false, hfind, hid]
    simp only [List.filterMap_append, hd]
    simp
  · intro u msg hfind
    unfold errorsSurfaced statusCodes addUserCalls sessionsEncoded cookiesSet handlerCalls at *
    simp only [List.filterMap_append, q2, q4, q5, q6, q7, q9]
    unfold federatedSignin
    simp only [hemail, if_false, hfind]
    simp [Error]

theorem C9_provisioning_witness :
    addUserCalls (WebHandler (federatedEnv "bob@example.com") "profile" anonymousRequest) =
      ["bob@example.com"] ∧
    addUserCalls (WebHandler (federatedEnv "ann@example.com") "profile" anonymousRequest) = [] :=
  ⟨(C9_provisioning_follows_lookup (federatedEnv "bob@example.com") "profile" anonymousRequest
      .missingCookie (claimFor "bob@example.com") "bob@example.com"
      (by decide) (by decide) (by decide) rfl rfl (by decide)).1 User.zero
      (by decide) (by decide),
   (C9_provisioning_follows_lookup (federatedEnv "ann@example.com") "profile" anonymousRequest
      .missingCookie (claimFor "ann@example.com") "ann@example.com"
      (by decide) (by decide) (by decide) rfl rfl (by decide)).2.1
      { ID := "u1", Email := "ann@example.com", Admin := true } (by decide) (by decide)⟩

/-! ### The gateway contract -/

theorem handlerCalls_federatedSignin_length (env : Env) (web : Web) (session : SamlSession) :
    (handlerCalls (federatedSignin env web session)).length ≤ 1 := by
  have hd : ∀ user, (handlerCalls (federatedDispatch env web user)).length ≤ 1 := by
    intro user
    rw [(federatedDispatch_observed env web user).2.2.2.2.1]
    split_ifs <;> simp
  unfold federatedSignin
  cases session with
  | other => simp [handlerCalls, Error]
  | JWTSessionClaims email =>
    simp only
    by_cases hemail : email = ""
    · simp [hemail, handlerCalls, Error]
    · simp only [hemail, if_false]
      rcases hfind : env.config.FindUserByEmail email with ⟨u, err⟩
      have hrest : (handlerCalls (if u.ID = "" then
            [Event.log .info "SAML: creating user with email %q" [email], .addUser email] ++
            match env.config.AddUser email with
            | (_, some err) => Error err.toError
            | (created, none) => federatedDispatch env web created
          else federatedDispatch env web u)).length ≤ 1 := by
        by_cases hid : u.ID = ""
        · simp only [hid, if_true]
          rcases hadd : env.config.AddUser email with ⟨created, aerr⟩
          cases aerr with
          | some err => simp [handlerCalls, Error]
          | none =>
            have := hd created
            unfold handlerCalls at this ⊢
            simpa [List.filterMap_append] using this
        · simp only [hid, if_false]
          exact hd u
      rcases err with _ | err
      · unfold handlerCalls at hrest ⊢
        simpa [List.filterMap_append] using hrest
      · cases err with
        | ErrUserNotFound =>
          unfold handlerCalls at hrest ⊢
          simpa [List.filterMap_append] using hrest
        | failure msg => simp [handlerCalls, Error]

theorem mem_handlerCalls_federatedSignin (env : Env) (web handled : Web)
    (session : SamlSession) :
    handled ∈ handlerCalls (federatedSignin env web session) ↔
      ∃ email user, session = .JWTSessionClaims email ∧ email ≠ "" ∧
        (UserFound env.config email user ∨ UserCreated env.config email user) ∧
        (SigninSession env.securetoken env.httpHost env.clock.signinExpires
          env.clock.signinNotBefore false user.ID).2 = none ∧
        handled = { web with User := user, Admin := user.Admin } := by
  have hd : ∀ user, handled ∈ handlerCalls (federatedDispatch env web user) ↔
      ((SigninSession env.securetoken env.httpHost env.clock.signinExpires
          env.clock.signinNotBefore false user.ID).2 = none ∧
        handled = { web with User := user, Admin := user.Admin }) := by
    intro user
    rw [(federatedDispatch_observed env web user).2.2.2.2.1]
    split_ifs with h <;> simp [h]
  constructor
  · intro hmem
    unfold federatedSignin at hmem
    cases session with
    | other => simp [handlerCalls, Error] at hmem
    | JWTSessionClaims email =>
      simp only at hmem
      by_cases hemail : email = ""
      · simp [hemail, handlerCalls, Error] at hmem
      · simp only [hemail, if_false] at hmem
        rcases hfind : env.config.FindUserByEmail email with ⟨u, err⟩
        rw [hfind] at hmem
        have hcases : ∀ (hnf : err = none ∨ err = some .ErrUserNotFound),
            handled ∈ handlerCalls (if u.ID = "" then
              [Event.log .info "SAML: creating user with email %q" [email], .addUser email] ++
              match env.config.AddUser email with
              | (_, some err) => Error err.toError
              | (created, none) => federatedDispatch env web created
            else federatedDispatch env web u) →
            ∃ email2 user, SamlSession.JWTSessionClaims email = .JWTSessionClaims email2 ∧
              email2 ≠ "" ∧
              (UserFound env.config email2 user ∨ UserCreated env.config email2 user) ∧
              (SigninSession env.securetoken env.httpHost env.clock.signinExpires
                env.clock.signinNotBefore false user.ID).2 = none ∧
              handled = { web with User := user, Admin := user.Admin } := by
          intro hnf hm
          have hnf2 : LookupNotFailed env.config email := by
            unfold LookupNotFailed
            rw [hfind]
            exact hnf
          by_cases hid : u.ID = ""
          · simp only [hid, if_true] at hm
            rcases hadd : env.config.AddUser email with ⟨created, aerr⟩
            rw [hadd] at hm
            cases aerr with
            | some err2 => simp [handlerCalls, Error] at hm
            | none =>
              have hm2 : handled ∈ handlerCalls (federatedDispatch env web created) := by
                unfold handlerCalls at hm ⊢
                simpa [List.filterMap_append] using hm
              obtain ⟨hok, heq⟩ := (hd created).mp hm2
              refine ⟨email, created, rfl, hemail, Or.inr ⟨hnf2, ?_, hadd⟩, hok, heq⟩
              rw [hfind]
              exact hid
          · simp only [hid, if_false] at hm
            obtain ⟨hok, heq⟩ := (hd u).mp hm
            refine ⟨email, u, rfl, hemail, Or.inl ⟨hnf2, ?_, hid⟩, hok, heq⟩
            rw [hfind]
        rcases err with _ | err
        · apply hcases (Or.inl rfl)
          unfold handlerCalls at hmem ⊢
          simpa [List.filterMap_append] using hmem
        · cases err with
          | ErrUserNotFound =>
            apply hcases (Or.inr rfl)
            unfold handlerCalls at hmem ⊢
            simpa [List.filterMap_append] using hmem
          | failure msg => simp [handlerCalls, Error] at hmem
  · rintro ⟨email, user, rfl, hemail, hres, hok, heq⟩
    obtain ⟨head, _, _, h3, _, _, ht⟩ := federatedSignin_resolved env web email user hemail hres
    rw [ht]
    have := (hd user).mpr ⟨hok, heq⟩
    unfold handlerCalls at h3 this ⊢
    rw [List.filterMap_append, h3]
    simpa using this

/-- The trace of a request to a protected section of a configured system
whose session validates: a quiet head, then the local-session branch. -/
theorem webHandler_local_trace (env : Env) (sectionName : String) (r : Request)
    (session : Session) (hs : ¬ isBypass sectionName) (hc : env.config.Configured = true)
    (hv : (ValidateSession env.securetoken r env.clock.validateBefore env.clock.validateAfter
      env.clock.validateMsg).2 = .ok session) :
    ∃ head, Quiet head ∧
      WebHandler env sectionName r =
        head ++
        (if session.UserID ≠ "" then
          [.findUser session.UserID] ++
          match env.config.FindUser session.UserID with
          | (_, some _) => signoutHandler env (newWeb env sectionName r)
          | (user, none) =>
            [.handler { newWeb env sectionName r with User := user, Admin := user.Admin }]
         else [.handler { newWeb env sectionName r with Admin := session.Admin }]) := by
  refine ⟨[.findInfo, .findInfo, .validateSession r] ++
      (ValidateSession env.securetoken r env.clock.validateBefore env.clock.validateAfter
        env.clock.validateMsg).1, ?_, ?_⟩
  · unfold Quiet
    rcases validateSession_events env.securetoken r env.clock.validateBefore
      env.clock.validateAfter env.clock.validateMsg with hev | ⟨value, hev⟩ <;>
    simp [hev, outcome, redirects, handlerCalls, errorsSurfaced, statusCodes,
      sessionsEncoded, cookiesSet, addUserCalls, storeCalls]
  · unfold isBypass at hs
    unfold WebHandler
    simp only [hs, hc, if_false, hv]
    simp

theorem handlerCalls_signoutHandler (env : Env) (web : Web) :
    handlerCalls (signoutHandler env web) = [] := by
  unfold signoutHandler SignoutSession Web.Redirect
  cases env.samlSP <;> simp [handlerCalls]

/-- C1: for a request whose section is not signin, forgot or configure, the
wrapped handler is called at most once, and it is called with a `Web` value
exactly when the system is configured and either (a) `ValidateSession`
succeeded and the session has an empty `UserID` (principal: the session's
`Admin` flag, no user) or `FindUser` succeeded for it (principal: that user
and its `Admin` flag), or (b) `ValidateSession` failed, a SAML client is
configured and returned a claim with a non-empty `Subject`, the user was found
or created, and `SigninSession` succeeded (principal: that user and its
`Admin` flag).  In every other case the handler is not called. -/
theorem C1_handler_called_only_with_resolved_principal (env : Env) (sectionName : String)
    (r : Request) (hs : ¬ isBypass sectionName) :
    (handlerCalls (WebHandler env sectionName r)).length ≤ 1 ∧
    ∀ web, web ∈ handlerCalls (WebHandler env sectionName r) ↔
      (env.config.Configured = true ∧
        (LocalPrincipal env sectionName r web ∨ FederatedPrincipal env sectionName r web)) := by
  by_cases hc : env.config.Configured = true
  swap
  · have hc2 : env.config.Configured = false := by simpa using hc
    rw [webHandler_unconfigured_trace env sectionName r hs hc2]
    refine ⟨by simp [handlerCalls], ?_⟩
    intro web
    simp [handlerCalls, hc2]
  cases hv : (ValidateSession env.securetoken r env.clock.validateBefore
      env.clock.validateAfter env.clock.validateMsg).2 with
  | ok session =>
    obtain ⟨head, hq, ht⟩ := webHandler_local_trace env sectionName r session hs hc hv
    have q2 : handlerCalls head = [] := hq.2.1
    have hfed : ∀ web, ¬ FederatedPrincipal env sectionName r web := by
      rintro web ⟨⟨e, he⟩, _⟩
      rw [hv] at he
      cases he
    have hloc : ∀ web, LocalPrincipal env sectionName r web ↔
        ((session.UserID = "" ∧
            web = { newWeb env sectionName r with Admin := session.Admin }) ∨
         (session.UserID ≠ "" ∧ ∃ user,
            env.config.FindUser session.UserID = (user, none) ∧
            web = { newWeb env sectionName r with User := user, Admin := user.Admin })) := by
      intro web
      unfold LocalPrincipal
      rw [hv]
      constructor
      · rintro ⟨s2, hs2, h⟩
        cases hs2
        exact h
      · intro h
        exact ⟨session, rfl, h⟩
    rw [ht]
    unfold handlerCalls at q2 ⊢
    rw [List.filterMap_append, q2, List.nil_append]
    by_cases hid : session.UserID = ""
    · simp only [hid, ne_eq, not_true_eq_false, if_false]
      refine ⟨by simp, ?_⟩
      intro web
      simp [hc, hfed, hloc, hid]
    · simp only [ne_eq, hid, not_false_eq_true, if_true]
      rcases hfind : env.config.FindUser session.UserID with ⟨user, err⟩
      cases err with
      | some err =>
        have hso := handlerCalls_signoutHandler env (newWeb env sectionName r)
        unfold handlerCalls at hso
        simp only [List.filterMap_append, hso]
        refine ⟨by simp, ?_⟩
        intro web
        simp [hc, hfed, hloc, hid, hfind]
      | none =>
        refine ⟨by simp, ?_⟩
        intro web
        simp [hc, hfed, hloc, hid, hfind]
  | error e =>
    have hloc : ∀ web, ¬ LocalPrincipal env sectionName r web := by
      rintro web ⟨session, hs2, _⟩
      rw [hv] at hs2
      cases hs2
    by_cases hno : NoFederatedClaim env r
    · have h0 := (webHandler_signin_required_observed env sectionName r e hs hc hv hno).2.2.1
      rw [h0]
      refine ⟨by simp, ?_⟩
      intro web
      have hfed : ¬ FederatedPrincipal env sectionName r web := by
        rintro ⟨_, sp, email, user, hsp, hget, _⟩
        unfold NoFederatedClaim at hno
        rw [hsp] at hno
        simp only at hno
        rw [hno] at hget
        cases hget
      simp [hloc, hfed]
    · unfold NoFederatedClaim at hno
      cases hsp : env.samlSP with
      | none => rw [hsp] at hno; exact absurd trivial hno
      | some sp =>
        rw [hsp] at hno
        simp only at hno
        cases hget : (sp.GetSession r).1 with
        | none => exact absurd hget hno
        | some session =>
          obtain ⟨head, hq, ht⟩ :=
            webHandler_federated_trace env sectionName r e sp session hs hc hv hsp hget
          have q2 : handlerCalls head = [] := hq.2.1
          have hlen := handlerCalls_federatedSignin_length env (newWeb env sectionName r) session
          have hmem := fun web =>
            mem_handlerCalls_federatedSignin env (newWeb env sectionName r) web session
          rw [ht]
          unfold handlerCalls at q2 hlen hmem ⊢
          rw [List.filterMap_append, q2, List.nil_append]
          refine ⟨hlen, ?_⟩
          intro web
          rw [hmem web]
          unfold FederatedPrincipal
          constructor
          · rintro ⟨email, user, hsess, hemail, hres, hok, heq⟩
            refine ⟨hc, Or.inr ⟨⟨e, hv⟩, sp, email, user, hsp, ?_, hemail, hres, hok, heq⟩⟩
            rw [← hsess]
            exact hget
          · rintro ⟨_, h | h⟩
            · exact absurd h (hloc web)
            · obtain ⟨_, sp2, email, user, hsp2, hget2, hemail, hres, hok, heq⟩ := h
              rw [hsp] at hsp2
              cases hsp2
              rw [hget] at hget2
              cases hget2
              exact ⟨email, user, rfl, hemail, hres, hok, heq⟩

theorem C1_handler_contract_witness :
    ¬ isBypass "profile" ∧
    (handlerCalls (WebHandler sampleEnv "profile"
      { cookies := [(SessionCookieName, "tok")] })).length ≤ 1 ∧
    ∀ web, web ∈ handlerCalls (WebHandler sampleEnv "profile"
        { cookies := [(SessionCookieName, "tok")] }) ↔
      (sampleEnv.config.Configured = true ∧
        (LocalPrincipal sampleEnv "profile" { cookies := [(SessionCookieName, "tok")] } web ∨
         FederatedPrincipal sampleEnv "profile" { cookies := [(SessionCookieName, "tok")] } web)) :=
  ⟨by decide,
   C1_handler_called_only_with_resolved_principal sampleEnv "profile"
     { cookies := [(SessionCookieName, "tok")] } (by decide)⟩

/-! ### Sample runs -/

/-- A valid local session for user `u1`: the handler is called once, with
that user and the user's `Admin` flag. -/
theorem sample_local_session_run :
    WebHandler sampleEnv "profile" { cookies := [(SessionCookieName, "tok")] } =
      [.findInfo, .findInfo,
       .validateSession { cookies := [(SessionCookieName, "tok")] },
       .decode SessionCookieName "tok",
       .findUser "u1",
       .handler { newWeb sampleEnv "profile" { cookies := [(SessionCookieName, "tok")] } with
                  User := { ID := "u1", Email := "ann@example.com", Admin := true },
                  Admin := true }] := by
  decide

/-- A federated claim for an unknown email: the user is created, the session
record cannot be encoded by the sample codec, and the encoding error is
surfaced. -/
theorem sample_federated_provisioning_run :
    WebHandler (federatedEnv "bob@example.com") "profile" anonymousRequest =
      [.findInfo, .findInfo, .validateSession anonymousRequest, .getSession anonymousRequest,
       .log .info "SAML: finding user with email %q" ["bob@example.com"],
       .findUserByEmail "bob@example.com",
       .log .info "SAML: creating user with email %q" ["bob@example.com"],
       .addUser "bob@example.com",
       .encode SessionCookieName
         { Admin := false, UserID := "new-bob@example.com", NotBefore := 5,
           NotAfter := 5 + 12 * Hour },
       .logError (.encodingError "securetoken: unsupported value"),
       .writeHeader 500,
       .setHeader "Content-Type" "text/html; charset=utf-8",
       .writeErrorPage] := by
  decide

/-- Whether `AddUser` is called is decided by the ID of the record the lookup
returned: it is called, once and with the claim's email, exactly when the
lookup did not fail and the record's ID is empty. -/
theorem addUserCalls_federatedSignin (env : Env) (web : Web) (email : String)
    (hemail : email ≠ "") :
    addUserCalls (federatedSignin env web (.JWTSessionClaims email)) =
      if ((env.config.FindUserByEmail email).2 = none ∨
          (env.config.FindUserByEmail email).2 = some .ErrUserNotFound) ∧
         (env.config.FindUserByEmail email).1.ID = ""
      then [email] else [] := by
  have hd := fun user => (federatedDispatch_observed env web user).2.1
  unfold federatedSignin
  simp only [hemail, if_false]
  rcases hfind : env.config.FindUserByEmail email with ⟨u, err⟩
  unfold addUserCalls at hd ⊢
  have hrest : ∀ (_ : err = none ∨ err = some .ErrUserNotFound),
      List.filterMap (fun e => match e with | .addUser email => some email | _ => none)
        (if u.ID = "" then
          [Event.log .info "SAML: creating user with email %q" [email], .addUser email] ++
          match env.config.AddUser email with
          | (_, some err) => Error err.toError
          | (created, none) => federatedDispatch env web created
        else federatedDispatch env web u) =
      if u.ID = "" then [email] else [] := by
    intro _
    by_cases hid : u.ID = ""
    · simp only [hid, if_true]
      rcases hadd : env.config.AddUser email with ⟨created, aerr⟩
      cases aerr with
      | some err2 => simp [Error]
      | none => simp [List.filterMap_append, hd created]
    · simp only [hid, if_false]
      exact hd u
  rcases err with _ | err
  · simpa [List.filterMap_append] using hrest (Or.inl rfl)
  · cases err with
    | ErrUserNotFound => simpa [List.filterMap_append] using hrest (Or.inr rfl)
    | failure msg => simp [Error]

end Subspace
